import Mathlib

/-!
Shallow embedding of the LangChain starter template (TypeScript) and proofs
about it.  The components modelled are:

* `Logger` (src/utils/Logger.ts): severity-filtered console logging.
  Emission is modelled as the list of lines written to the console sink;
  the timestamp is passed as an explicit parameter standing for
  `new Date().toISOString()`.
* `ConfigManager` (src/config/ConfigManager.ts): environment-driven
  configuration with validation.  The process environment is modelled as a
  function `String → Option String`; `none` is an unset variable.
* `ModelManager` (src/models/ModelManager.ts): initialization flag,
  accessors gated on it, and the event trace (logger calls and artificial
  delays) of `initialize`.
* `LangChainCore` (src/core/LangChainCore.ts): the mock chat / prompt-chain /
  vector-store / RAG / embeddings / text-splitting operations, each gated on
  the Model Manager's initialized flag.  Fallible operations return
  `Except String α`; the possibly non-terminating `splitText` loop is
  modelled with explicit fuel, `none` denoting divergence.
* `LangChainStarter` (src/index.ts): the application facade; the result of
  `testConnection()` is passed as an explicit boolean so that a forced
  connection failure can be expressed.

Strings processed character-by-character (text splitting) are modelled as
`List Char`; elsewhere `String` is used directly.  JavaScript numbers that
the code produces with `parseFloat` / `parseInt` are modelled as
`Option ℚ` / `Option Int`, with `none` standing for `NaN`.
-/

/-! ### Logger -/

/-- Section `logging` of `LangChainConfig`.  The TypeScript declaration
restricts `level` to the four literal strings, but `loadConfig` casts an
arbitrary environment string into it (`as any`), so the level is modelled
as a plain string. -/
structure LoggingSection where
  level : String
  enableConsole : Bool
deriving DecidableEq

/-- The ordered level list from `Logger.shouldLog`:
`["debug", "info", "warn", "error"]`. -/
def levelsList : List String := ["debug", "info", "warn", "error"]

/-- JavaScript `Array.prototype.indexOf`: the index of the first occurrence,
or `-1` when absent. -/
def jsIndexOf (l : List String) (s : String) : Int :=
  match l.findIdx? (fun t => t == s) with
  | some i => (i : Int)
  | none => -1

/-- Rank of a level string in the ordered level list (`-1` when invalid). -/
def levelIndex (s : String) : Int := jsIndexOf levelsList s

/-- `Logger.log`: writes one formatted line when console output is enabled,
nothing otherwise.  The optional structured payload only changes the line's
content, never whether a line is emitted, so it is omitted. -/
def Logger.logLine (cfg : LoggingSection) (level ts msg : String) : List String :=
  if cfg.enableConsole then
    ["[" ++ ts ++ "] [" ++ level.toUpper ++ "] " ++ msg]
  else []

/-- `Logger.shouldLog`: message level index at or above the configured
level index. -/
def Logger.shouldLog (cfg : LoggingSection) (level : String) : Bool :=
  decide (levelIndex cfg.level ≤ levelIndex level)

/-- A severity-tagged logging call: filter by `shouldLog`, then `log`. -/
def Logger.logAt (cfg : LoggingSection) (level ts msg : String) : List String :=
  if Logger.shouldLog cfg level then Logger.logLine cfg level ts msg else []

/-- `Logger.debug`. -/
def Logger.debug (cfg : LoggingSection) (ts msg : String) : List String :=
  Logger.logAt cfg "debug" ts msg

/-- `Logger.info`. -/
def Logger.info (cfg : LoggingSection) (ts msg : String) : List String :=
  Logger.logAt cfg "info" ts msg

/-- `Logger.warn`. -/
def Logger.warn (cfg : LoggingSection) (ts msg : String) : List String :=
  Logger.logAt cfg "warn" ts msg

/-- `Logger.error`. -/
def Logger.error (cfg : LoggingSection) (ts msg : String) : List String :=
  Logger.logAt cfg "error" ts msg

/-! ### Configuration -/

/-- Section `openai` of `LangChainConfig`. -/
structure OpenAISection where
  apiKey : String
  model : String
  temperature : Option ℚ
  maxTokens : Option Int
deriving DecidableEq

/-- Section `embeddings` of `LangChainConfig`. -/
structure EmbeddingsSection where
  model : String
  chunkSize : Option Int
  chunkOverlap : Option Int
deriving DecidableEq

/-- The full configuration record. -/
structure LangChainConfig where
  openai : OpenAISection
  embeddings : EmbeddingsSection
  logging : LoggingSection
deriving DecidableEq

/-- JavaScript `a || d` for an optional environment string: the default is
used when the variable is unset or set to the empty string (both falsy). -/
def jsOrString (v : Option String) (d : String) : String :=
  match v with
  | some s => if s = "" then d else s
  | none => d

/-- Numeric value of a digit string (most significant digit first). -/
def digitsVal (ds : List Char) : Nat :=
  ds.foldl (fun n c => 10 * n + (c.toNat - 48)) 0

/-- JavaScript `parseFloat`, on the fragment of decimal literals this
configuration uses: a digit run optionally followed by `.` and a fractional
digit run.  Inputs outside this fragment map to `none` (standing for `NaN`);
every string the configuration actually parses — the defaults `"0.7"`,
`"1000"`, `"200"` and well-formed user-supplied numbers — lies inside it. -/
def jsParseFloat (s : String) : Option ℚ :=
  match s.data.span Char.isDigit with
  | ([], _) => none
  | (ip, '.' :: rest) =>
      let fp := (rest.span Char.isDigit).1
      some ((digitsVal ip : ℚ) + (digitsVal fp : ℚ) / ((10 : ℚ) ^ fp.length))
  | (ip, _) => some ((digitsVal ip : ℚ))

/-- JavaScript `parseInt` on the same decimal fragment: the leading digit
run, `none` (`NaN`) when there is none. -/
def jsParseInt (s : String) : Option Int :=
  match s.data.span Char.isDigit with
  | ([], _) => none
  | (ip, _) => some ((digitsVal ip : Int))

/-- `ConfigManager.loadConfig`: build the configuration from the
environment, with the documented defaults. -/
def loadConfig (env : String → Option String) : LangChainConfig :=
  { openai :=
      { apiKey := jsOrString (env "OPENAI_API_KEY") ""
        model := jsOrString (env "OPENAI_MODEL") "gpt-3.5-turbo"
        temperature := jsParseFloat (jsOrString (env "OPENAI_TEMPERATURE") "0.7")
        maxTokens := jsParseInt (jsOrString (env "OPENAI_MAX_TOKENS") "1000") }
    embeddings :=
      { model := jsOrString (env "EMBEDDING_MODEL") "text-embedding-ada-002"
        chunkSize := jsParseInt (jsOrString (env "CHUNK_SIZE") "1000")
        chunkOverlap := jsParseInt (jsOrString (env "CHUNK_OVERLAP") "200") }
    logging :=
      { level := jsOrString (env "LOG_LEVEL") "info"
        enableConsole := env "ENABLE_CONSOLE_LOGGING" != some "false" } }

/-- `ConfigManager.validateConfig`: fails exactly when the API key is the
empty string (the only falsy string). -/
def validateConfig (c : LangChainConfig) : Except String Unit :=
  if c.openai.apiKey = "" then
    Except.error "OPENAI_API_KEY environment variable is required"
  else Except.ok ()

/-- The `ConfigManager` private constructor, run by `getInstance` on first
call: load, then validate; a validation failure propagates out of
construction. -/
def ConfigManager.construct (env : String → Option String) : Except String LangChainConfig :=
  let c := loadConfig env
  match validateConfig c with
  | Except.error e => Except.error e
  | Except.ok _ => Except.ok c

/-- A `Partial<LangChainConfig>`: each top-level section is optional; a
section that is present replaces the whole stored section under the shallow
spread `{ ...this.config, ...newConfig }`. -/
structure ConfigPatch where
  openai : Option OpenAISection
  embeddings : Option EmbeddingsSection
  logging : Option LoggingSection
deriving DecidableEq

/-- The shallow merge `{ ...this.config, ...newConfig }`. -/
def mergeConfig (c : LangChainConfig) (newConfig : ConfigPatch) : LangChainConfig :=
  { openai := newConfig.openai.getD c.openai
    embeddings := newConfig.embeddings.getD c.embeddings
    logging := newConfig.logging.getD c.logging }

/-- `ConfigManager.updateConfig`: first assign the merged record to the
singleton's slot, then validate it.  The returned pair is the stored
configuration after the call together with the call's outcome. -/
def ConfigManager.updateConfig (c : LangChainConfig) (newConfig : ConfigPatch) :
    LangChainConfig × Except String Unit :=
  let merged := mergeConfig c newConfig
  (merged, validateConfig merged)

/-- `ConfigManager.getConfig`: returns the stored configuration. -/
def ConfigManager.getConfig (c : LangChainConfig) : LangChainConfig := c

/-! ### Model Manager -/

/-- The precondition error message thrown by every gated accessor and
operation. -/
def initErr : String := "ModelManager must be initialized before use"

/-- Observable events of a Model-Manager method: a logger call (level and
message) or an artificial `setTimeout` delay in milliseconds. -/
inductive MMEvent where
  | delay (ms : Nat)
  | logCall (level : String) (msg : String)
deriving DecidableEq

/-- Event is an artificial delay. -/
def MMEvent.isDelay : MMEvent → Bool
  | MMEvent.delay _ => true
  | MMEvent.logCall _ _ => false

/-- `ModelManager.initializeStep`, as a transition on the `initialized` flag
returning the new flag together with the trace of events.  When already
initialized it only logs a warning; otherwise it logs, performs the 100 ms
simulated delay (which itself logs a debug line), sets the flag and logs
success. -/
def ModelManager.initializeStep (initialized : Bool) : Bool × List MMEvent :=
  if initialized then
    (initialized, [MMEvent.logCall "warn" "ModelManager already initialized"])
  else
    (true,
      [MMEvent.logCall "info" "Initializing ModelManager...",
       MMEvent.delay 100,
       MMEvent.logCall "debug" "Model initialization simulated",
       MMEvent.logCall "info" "ModelManager initialized successfully"])

/-- `ModelManager.testConnection`: always returns `true` in the source
after a 50 ms delay. -/
def ModelManager.testConnection : Bool × List MMEvent :=
  (true,
    [MMEvent.logCall "info" "Testing model connection...",
     MMEvent.delay 50,
     MMEvent.logCall "info" "Model connection test successful"])

/-- `ModelManager.reinitializeStep`: reset the flag to `false`, then
`initialize`. -/
def ModelManager.reinitializeStep (_initialized : Bool) : Bool × List MMEvent :=
  ModelManager.initializeStep false

/-- `ModelManager.getChatModel`: precondition error before initialization;
afterwards the `null` placeholder, modelled as `()`. -/
def ModelManager.getChatModel (initialized : Bool) : Except String Unit :=
  if !initialized then Except.error initErr else Except.ok ()

/-- `ModelManager.getEmbeddings`: same gating, `null` placeholder. -/
def ModelManager.getEmbeddings (initialized : Bool) : Except String Unit :=
  if !initialized then Except.error initErr else Except.ok ()

/-- `ModelManager.getTextSplitter`: same gating, `null` placeholder. -/
def ModelManager.getTextSplitter (initialized : Bool) : Except String Unit :=
  if !initialized then Except.error initErr else Except.ok ()

/-! ### Orchestration core -/

/-- A mock search result: document content with a constant score. -/
structure SearchResult where
  content : String
  score : ℚ
deriving DecidableEq

/-- The mock vector store: just the captured document list. -/
structure VectorStore where
  documents : List String
deriving DecidableEq

/-- The store's `search` closure: the first `k` documents, each paired with
the constant score `0.8`; the query string is never used.  In the source
`k` defaults to 4 when the caller omits it. -/
def VectorStore.search (vs : VectorStore) (query : String) (k : Nat) : List SearchResult :=
  (vs.documents.take k).map (fun doc => ⟨doc, 0.8⟩)

/-- `LangChainCore.simpleChat`: gated on the Model Manager's flag; echoes
the message with a fixed label; the optional system prompt is ignored. -/
def LangChainCore.simpleChat (initialized : Bool) (message : String)
    (_systemPrompt : Option String) : Except String String :=
  if !initialized then Except.error initErr
  else Except.ok ("Echo: " ++ message)

/-- A mock prompt chain: the template and a callable over the variables
record (modelled as an association list of string keys and values). -/
structure PromptChain where
  template : String
  call : List (String × String) → String

/-- JavaScript `JSON.stringify` on a flat object whose values are strings. -/
def jsonStringify (pairs : List (String × String)) : String :=
  "\x7b" ++
    String.intercalate ","
      (pairs.map (fun p => "\"" ++ p.1 ++ "\":\"" ++ p.2 ++ "\"")) ++
  "\x7d"

/-- `LangChainCore.createPromptChain`. -/
def LangChainCore.createPromptChain (initialized : Bool) (template : String) :
    Except String PromptChain :=
  if !initialized then Except.error initErr
  else Except.ok ⟨template, fun vars => "Processed: " ++ jsonStringify vars⟩

/-- `LangChainCore.createVectorStore`. -/
def LangChainCore.createVectorStore (initialized : Bool) (documents : List String) :
    Except String VectorStore :=
  if !initialized then Except.error initErr
  else Except.ok ⟨documents⟩

/-- A mock RAG response. -/
structure RAGResponse where
  result : String
  sourceDocuments : List SearchResult
deriving DecidableEq

/-- The RAG chain's `call` closure: search the backing store with the query
(the omitted `k` defaults to 4), join the contents with `", "` after a
fixed label, and return the search results as source documents. -/
def ragChainCall (documents : List String) (query : String) : RAGResponse :=
  let relevantDocs := VectorStore.search ⟨documents⟩ query 4
  ⟨"RAG response based on: " ++
      String.intercalate ", " (relevantDocs.map (fun d => d.content)),
    relevantDocs⟩

/-- A mock RAG chain: backing store plus callable. -/
structure RAGChain where
  vectorStore : VectorStore
  call : String → RAGResponse

/-- `LangChainCore.createRAGChain`: builds a fresh vector store (which is
what checks the initialized flag) and wraps `ragChainCall` around it. -/
def LangChainCore.createRAGChain (initialized : Bool) (documents : List String) :
    Except String RAGChain :=
  match LangChainCore.createVectorStore initialized documents with
  | Except.error e => Except.error e
  | Except.ok vs => Except.ok ⟨vs, ragChainCall vs.documents⟩

/-- `LangChainCore.similaritySearch`: fresh store, then search. -/
def LangChainCore.similaritySearch (initialized : Bool) (query : String)
    (documents : List String) (k : Nat) : Except String (List SearchResult) :=
  match LangChainCore.createVectorStore initialized documents with
  | Except.error e => Except.error e
  | Except.ok vs => Except.ok (VectorStore.search vs query k)

/-- `LangChainCore.getEmbeddings`: a vector of 1536 draws from
`Math.random()`, modelled by an explicit random source indexed by
position. -/
def LangChainCore.getEmbeddings (initialized : Bool) (rand : Nat → ℚ) :
    Except String (List ℚ) :=
  if !initialized then Except.error initErr
  else Except.ok ((List.range 1536).map rand)

/-- The chunking loop of `splitText`
(`for (let i = 0; i < text.length; i += chunkSize) chunks.push(text.slice(i, i + chunkSize))`),
with explicit fuel: one unit per iteration, `none` when the fuel runs out —
which, given fuel `text.length`, happens exactly when the JavaScript loop
does not terminate. -/
def splitChunksFuel (chunkSize : Nat) : Nat → List Char → Option (List (List Char))
  | _, [] => some []
  | 0, _ :: _ => none
  | fuel + 1, c :: rest =>
      (splitChunksFuel chunkSize fuel ((c :: rest).drop chunkSize)).map
        (fun tail => (c :: rest).take chunkSize :: tail)

/-- `LangChainCore.splitText`: gated on the flag, then the chunking loop
with the configured chunk size (read from `config.embeddings.chunkSize` in
the source and passed here as a parameter).  `none` denotes divergence of
the loop; the configured chunk-overlap value is never consulted. -/
def LangChainCore.splitText (initialized : Bool) (chunkSize : Nat) (text : List Char) :
    Option (Except String (List (List Char))) :=
  if !initialized then some (Except.error initErr)
  else (splitChunksFuel chunkSize text.length text).map Except.ok

/-! ### Application facade -/

/-- The facade's state: the Model Manager's flag and the facade's own
flag. -/
structure StarterState where
  mmInit : Bool
  initialized : Bool
deriving DecidableEq

/-- `LangChainStarter.initialize`, with the result of `testConnection()`
passed as an explicit boolean (the source's method always yields `true`;
`connOk = false` models a forced connection failure).  When already
initialized it only warns; otherwise it initializes the Model Manager,
tests the connection, and throws the connection error — leaving its own
flag unset — when the test fails. -/
def starterInitialize (s : StarterState) (connOk : Bool) :
    StarterState × Except String Unit :=
  if s.initialized then (s, Except.ok ())
  else
    let mm := (ModelManager.initializeStep s.mmInit).1
    if connOk then (⟨mm, true⟩, Except.ok ())
    else (⟨mm, false⟩, Except.error "Failed to establish connection with models")

/-- `LangChainStarter.getCore`: precondition error before the facade is
initialized. -/
def starterGetCore (s : StarterState) : Except String Unit :=
  if !s.initialized then
    Except.error "LangChain starter must be initialized before use"
  else Except.ok ()

/-! ### Helper lemmas about the chunking loop -/

theorem splitChunksFuel_nil (cs fuel : Nat) : splitChunksFuel cs fuel [] = some [] := by
  cases fuel <;> rfl

theorem splitChunksFuel_zero_fuel (cs : Nat) (c : Char) (t : List Char) :
    splitChunksFuel cs 0 (c :: t) = none := rfl

theorem splitChunksFuel_succ (cs fuel : Nat) (c : Char) (t : List Char) :
    splitChunksFuel cs (fuel + 1) (c :: t) =
      (splitChunksFuel cs fuel ((c :: t).drop cs)).map
        (fun tail => (c :: t).take cs :: tail) := rfl

/-- With a positive chunk size the loop terminates whenever the fuel covers
the text length. -/
theorem splitChunksFuel_total (cs : Nat) (hcs : 1 ≤ cs) :
    ∀ (fuel : Nat) (t : List Char), t.length ≤ fuel →
      ∃ chunks, splitChunksFuel cs fuel t = some chunks := by
  intro fuel
  induction fuel with
  | zero =>
      intro t ht
      have h0 : t = [] := List.eq_nil_of_length_eq_zero (Nat.le_zero.mp ht)
      exact ⟨[], h0 ▸ splitChunksFuel_nil cs 0⟩
  | succ fuel ih =>
      intro t ht
      cases t with
      | nil => exact ⟨[], splitChunksFuel_nil cs (fuel + 1)⟩
      | cons c rest =>
          have hlen : ((c :: rest).drop cs).length ≤ fuel := by
            rw [List.length_drop]
            simp only [List.length_cons] at ht ⊢
            omega
          obtain ⟨tail, htail⟩ := ih ((c :: rest).drop cs) hlen
          exact ⟨(c :: rest).take cs :: tail, by
            rw [splitChunksFuel_succ, htail]; rfl⟩

/-- Concatenating the chunks in order gives back the input text. -/
theorem splitChunksFuel_join (cs : Nat) :
    ∀ (fuel : Nat) (t : List Char) (chunks : List (List Char)),
      splitChunksFuel cs fuel t = some chunks → chunks.flatten = t := by
  intro fuel
  induction fuel with
  | zero =>
      intro t chunks h
      cases t with
      | nil =>
          rw [splitChunksFuel_nil] at h
          cases h
          rfl
      | cons c rest => rw [splitChunksFuel_zero_fuel] at h; cases h
  | succ fuel ih =>
      intro t chunks h
      cases t with
      | nil =>
          rw [splitChunksFuel_nil] at h
          cases h
          rfl
      | cons c rest =>
          rw [splitChunksFuel_succ] at h
          cases hrec : splitChunksFuel cs fuel ((c :: rest).drop cs) with
          | none => rw [hrec] at h; cases h
          | some tail =>
              rw [hrec] at h
              cases h
              have htail := ih ((c :: rest).drop cs) tail hrec
              simp only [List.flatten_cons, htail]
              exact List.take_append_drop cs (c :: rest)

/-- Every chunk has length at most the chunk size, and every chunk other
than the last has length exactly the chunk size. -/
theorem splitChunksFuel_chunk_len (cs : Nat) :
    ∀ (fuel : Nat) (t : List Char) (chunks : List (List Char)),
      splitChunksFuel cs fuel t = some chunks →
        (∀ chunk ∈ chunks, chunk.length ≤ cs) ∧
        (∀ chunk ∈ chunks.dropLast, chunk.length = cs) := by
  intro fuel
  induction fuel with
  | zero =>
      intro t chunks h
      cases t with
      | nil =>
          rw [splitChunksFuel_nil] at h
          cases h
          exact ⟨(by intro _ hc; cases hc), (by intro _ hc; cases hc)⟩
      | cons c rest => rw [splitChunksFuel_zero_fuel] at h; cases h
  | succ fuel ih =>
      intro t chunks h
      cases t with
      | nil =>
          rw [splitChunksFuel_nil] at h
          cases h
          exact ⟨(by intro _ hc; cases hc), (by intro _ hc; cases hc)⟩
      | cons c rest =>
          rw [splitChunksFuel_succ] at h
          cases hrec : splitChunksFuel cs fuel ((c :: rest).drop cs) with
          | none => rw [hrec] at h; cases h
          | some tail =>
              rw [hrec] at h
              cases h
              obtain ⟨ih1, ih2⟩ := ih ((c :: rest).drop cs) tail hrec
              constructor
              · intro chunk hc
                rcases List.mem_cons.mp hc with h1 | h1
                · subst h1
                  rw [List.length_take]
                  exact Nat.min_le_left cs _
                · exact ih1 chunk h1
              · intro chunk hc
                cases tail with
                | nil => cases hc
                | cons t2 ts =>
                    have hdl : ((c :: rest).take cs :: t2 :: ts).dropLast =
                        (c :: rest).take cs :: (t2 :: ts).dropLast := rfl
                    rw [hdl] at hc
                    rcases List.mem_cons.mp hc with h1 | h1
                    · subst h1
                      have hne : (c :: rest).drop cs ≠ [] := by
                        intro hdrop
                        rw [hdrop, splitChunksFuel_nil] at hrec
                        cases hrec
                      have hlt : cs < (c :: rest).length := by
                        by_contra hge
                        exact hne (List.drop_eq_nil_of_le (Nat.le_of_not_lt hge))
                      rw [List.length_take]
                      omega
                    · exact ih2 chunk h1

/-- With chunk size zero the loop never terminates on nonempty text: no
amount of fuel produces a result. -/
theorem splitChunksFuel_zero_cs :
    ∀ (fuel : Nat) (t : List Char), t ≠ [] → splitChunksFuel 0 fuel t = none := by
  intro fuel
  induction fuel with
  | zero =>
      intro t ht
      cases t with
      | nil => exact absurd rfl ht
      | cons c rest => rfl
  | succ fuel ih =>
      intro t ht
      cases t with
      | nil => exact absurd rfl ht
      | cons c rest =>
          rw [splitChunksFuel_succ]
          have hdrop : (c :: rest).drop 0 = c :: rest := rfl
          rw [hdrop, ih (c :: rest) (List.cons_ne_nil c rest)]
          rfl

/-! ### Claim theorems -/

/-- A logging call at a given severity emits a line exactly when console
output is enabled and the severity's index is at or above the configured
level's index. -/
theorem logAt_ne_nil_iff (cfg : LoggingSection) (sev ts msg : String) :
    Logger.logAt cfg sev ts msg ≠ [] ↔
      cfg.enableConsole = true ∧ levelIndex cfg.level ≤ levelIndex sev := by
  unfold Logger.logAt Logger.logLine Logger.shouldLog
  by_cases h1 : levelIndex cfg.level ≤ levelIndex sev
  · by_cases h2 : cfg.enableConsole <;> simp [h1, h2]
  · simp [h1]

/-- Construction, written as a single conditional on the loaded key. -/
theorem construct_eq (env : String → Option String) :
    ConfigManager.construct env =
      if (loadConfig env).openai.apiKey = "" then
        Except.error "OPENAI_API_KEY environment variable is required"
      else Except.ok (loadConfig env) := by
  unfold ConfigManager.construct validateConfig
  by_cases h : (loadConfig env).openai.apiKey = "" <;> simp [h]

/-- C2: `ConfigManager` construction (the body of `getInstance` on first
call) succeeds exactly when the resolved API key — the `OPENAI_API_KEY`
environment variable, defaulting to the empty string — is non-empty, and
when it succeeds it returns the loaded configuration, whose other settings
carry the documented defaults whenever their environment variables are
unset. -/
theorem configConstructValidation (env : String → Option String) :
    ((ConfigManager.construct env).isOk = true ↔
        jsOrString (env "OPENAI_API_KEY") "" ≠ "") ∧
    (loadConfig env).openai.apiKey = jsOrString (env "OPENAI_API_KEY") "" ∧
    (jsOrString (env "OPENAI_API_KEY") "" ≠ "" →
        ConfigManager.construct env = Except.ok (loadConfig env)) ∧
    (env "OPENAI_MODEL" = none → (loadConfig env).openai.model = "gpt-3.5-turbo") ∧
    (env "OPENAI_TEMPERATURE" = none →
        (loadConfig env).openai.temperature = some ((7 : ℚ) / 10)) ∧
    (env "OPENAI_MAX_TOKENS" = none → (loadConfig env).openai.maxTokens = some 1000) ∧
    (env "EMBEDDING_MODEL" = none →
        (loadConfig env).embeddings.model = "text-embedding-ada-002") ∧
    (env "CHUNK_SIZE" = none → (loadConfig env).embeddings.chunkSize = some 1000) ∧
    (env "CHUNK_OVERLAP" = none → (loadConfig env).embeddings.chunkOverlap = some 200) ∧
    (env "LOG_LEVEL" = none → (loadConfig env).logging.level = "info") ∧
    (env "ENABLE_CONSOLE_LOGGING" = none →
        (loadConfig env).logging.enableConsole = true) := by
  have hkey : (loadConfig env).openai.apiKey = jsOrString (env "OPENAI_API_KEY") "" := rfl
  refine ⟨?_, hkey, ?_, ?_, ?_, ?_, ?_, ?_, ?_, ?_, ?_⟩
  · rw [construct_eq, hkey]
    by_cases h : jsOrString (env "OPENAI_API_KEY") "" = "" <;> simp [h, Except.isOk, Except.toBool]
  · intro h
    rw [construct_eq, hkey, if_neg h]
  · intro h; simp [loadConfig, h, jsOrString]
  · intro h
    simp only [loadConfig, h, jsOrString]
    rw [show jsParseFloat "0.7" =
        some (((digitsVal ['0'] : ℕ) : ℚ) +
          ((digitsVal ['7'] : ℕ) : ℚ) / ((10 : ℚ) ^ (1 : ℕ))) from rfl]
    rw [show digitsVal ['0'] = 0 from rfl, show digitsVal ['7'] = 7 from rfl]
    norm_num
  · intro h
    simp only [loadConfig, h, jsOrString]
    rw [show jsParseInt "1000" = some ((digitsVal ['1', '0', '0', '0'] : ℕ) : ℤ) from rfl]
    rw [show digitsVal ['1', '0', '0', '0'] = 1000 from rfl]
    norm_num
  · intro h; simp [loadConfig, h, jsOrString]
  · intro h
    simp only [loadConfig, h, jsOrString]
    rw [show jsParseInt "1000" = some ((digitsVal ['1', '0', '0', '0'] : ℕ) : ℤ) from rfl]
    rw [show digitsVal ['1', '0', '0', '0'] = 1000 from rfl]
    norm_num
  · intro h
    simp only [loadConfig, h, jsOrString]
    rw [show jsParseInt "200" = some ((digitsVal ['2', '0', '0'] : ℕ) : ℤ) from rfl]
    rw [show digitsVal ['2', '0', '0'] = 200 from rfl]
    norm_num
  · intro h; simp [loadConfig, h, jsOrString]
  · intro h; simp [loadConfig, h, jsOrString]

/-- A concrete environment with only the API key set. -/
def envWitness : String → Option String :=
  fun k => if k = "OPENAI_API_KEY" then some "sk-test" else none

/-- Witness for C2: with the API key set and everything else unset,
construction succeeds and the model default applies. -/
theorem configConstructValidation_witness :
    (ConfigManager.construct envWitness).isOk = true ∧
    (loadConfig envWitness).openai.model = "gpt-3.5-turbo" :=
  ⟨(configConstructValidation envWitness).1.mpr (by decide),
   (configConstructValidation envWitness).2.2.2.1 (by decide)⟩

/-- C3: a `Logger` call emits a line exactly when console logging is
enabled and the message severity's rank is at or above the configured
threshold's rank (order debug < info < warn < error); stated for the four
severity methods over every configured threshold level, covering all
16 level combinations for either value of the console flag. -/
theorem loggerEmitIff :
    ∀ lvl ∈ levelsList, ∀ (en : Bool) (ts msg : String),
      (Logger.debug ⟨lvl, en⟩ ts msg ≠ [] ↔
        en = true ∧ levelIndex lvl ≤ levelIndex "debug") ∧
      (Logger.info ⟨lvl, en⟩ ts msg ≠ [] ↔
        en = true ∧ levelIndex lvl ≤ levelIndex "info") ∧
      (Logger.warn ⟨lvl, en⟩ ts msg ≠ [] ↔
        en = true ∧ levelIndex lvl ≤ levelIndex "warn") ∧
      (Logger.error ⟨lvl, en⟩ ts msg ≠ [] ↔
        en = true ∧ levelIndex lvl ≤ levelIndex "error") := by
  intro lvl _ en ts msg
  exact ⟨logAt_ne_nil_iff ⟨lvl, en⟩ "debug" ts msg,
         logAt_ne_nil_iff ⟨lvl, en⟩ "info" ts msg,
         logAt_ne_nil_iff ⟨lvl, en⟩ "warn" ts msg,
         logAt_ne_nil_iff ⟨lvl, en⟩ "error" ts msg⟩

/-- Witness for C3: with threshold `info` and console enabled, an
error-severity message is emitted. -/
theorem loggerEmitIff_witness :
    Logger.error ⟨"info", true⟩ "2024-01-01T00:00:00.000Z" "boom" ≠ [] ↔
      true = true ∧ levelIndex "info" ≤ levelIndex "error" :=
  (loggerEmitIff "info" (by decide) true "2024-01-01T00:00:00.000Z" "boom").2.2.2

/-- C9: `updateConfig` is not atomic on failure.  Whenever validation of
the shallow merge fails, the singleton's stored configuration has already
been replaced by the merged record — whose API key is empty — so a
subsequent `getConfig` returns the merged record rather than the pre-update
configuration (from which it differs whenever the old key was
non-empty). -/
theorem updateConfigNotAtomic (c : LangChainConfig) (p : ConfigPatch)
    (h : (ConfigManager.updateConfig c p).2.isOk = false) :
    ConfigManager.getConfig (ConfigManager.updateConfig c p).1 = mergeConfig c p ∧
    (mergeConfig c p).openai.apiKey = "" ∧
    (c.openai.apiKey ≠ "" →
        ConfigManager.getConfig (ConfigManager.updateConfig c p).1 ≠ c) := by
  have hkey : (mergeConfig c p).openai.apiKey = "" := by
    by_contra hne
    rw [show (ConfigManager.updateConfig c p).2 = validateConfig (mergeConfig c p)
        from rfl] at h
    unfold validateConfig at h
    rw [if_neg hne] at h
    cases h
  refine ⟨rfl, hkey, ?_⟩
  intro hc hEq
  have : (mergeConfig c p).openai.apiKey = c.openai.apiKey :=
    congrArg (fun cfg => cfg.openai.apiKey) hEq
  rw [hkey] at this
  exact hc this.symm

/-- A valid stored configuration for the C9 witness. -/
def cfgWitness : LangChainConfig :=
  ⟨⟨"sk-test", "gpt-3.5-turbo", some ((7 : ℚ) / 10), some 1000⟩,
   ⟨"text-embedding-ada-002", some 1000, some 200⟩,
   ⟨"info", true⟩⟩

/-- A patch whose `openai` section carries an empty API key (the shallow
merge replaces the whole section with it). -/
def patchWitnessC9 : ConfigPatch :=
  ⟨some ⟨"", "gpt-4", none, none⟩, none, none⟩

/-- Witness for C9: after the failing update the stored configuration is
the merged record and differs from the pre-update one. -/
theorem updateConfigNotAtomic_witness :
    (mergeConfig cfgWitness patchWitnessC9).openai.apiKey = "" ∧
    ConfigManager.getConfig (ConfigManager.updateConfig cfgWitness patchWitnessC9).1 ≠
      cfgWitness :=
  ⟨(updateConfigNotAtomic cfgWitness patchWitnessC9 (by decide)).2.1,
   (updateConfigNotAtomic cfgWitness patchWitnessC9 (by decide)).2.2
     (by decide)⟩

/-- C4: after initialization, `createVectorStore(docs)` yields the store
over `docs`, and its `search(query, k)` returns exactly the first
`min k docs.length` documents in order, each paired with the constant
score `0.8`; the query string has no effect on the result. -/
theorem vectorStoreSearchSpec (docs : List String) (query : String) (k : Nat) :
    ∃ vs, LangChainCore.createVectorStore true docs = Except.ok vs ∧
      VectorStore.search vs query k =
        (docs.take k).map (fun doc => ⟨doc, 0.8⟩) ∧
      (VectorStore.search vs query k).length = min k docs.length ∧
      (∀ q2 : String, VectorStore.search vs q2 k = VectorStore.search vs query k) := by
  refine ⟨⟨docs⟩, rfl, rfl, ?_, fun q2 => rfl⟩
  unfold VectorStore.search
  rw [List.length_map, List.length_take]

/-- Counterexample for C8 as frozen: the `result` field is not the plain
concatenation of the returned documents' contents — the code prepends the
fixed label `"RAG response based on: "` and joins with `", "`.  At
`docs = ["a", "b"]` the field is `"RAG response based on: a, b"`, not
`"ab"`. -/
theorem ragResultNotPlainConcat :
    (ragChainCall ["a", "b"] "q").result ≠
      String.join (((ragChainCall ["a", "b"] "q").sourceDocuments).map
        (fun d => d.content)) := by decide

/-- C8 (amended): after initialization, `createRAGChain(docs)` returns a
chain over a fresh store on `docs` whose `call {query := q}` yields a
response whose `result` field is the fixed label `"RAG response based on: "`
followed by the returned documents' contents joined with `", "`, and whose
`sourceDocuments` field is exactly the result of the fresh store's search
with its default `k = 4`; the query text influences nothing beyond being
passed to `search`, which ignores it. -/
theorem ragChainSpec (docs : List String) (q : String) :
    ∃ chain, LangChainCore.createRAGChain true docs = Except.ok chain ∧
      chain.call = ragChainCall docs ∧
      (chain.call q).sourceDocuments = VectorStore.search ⟨docs⟩ q 4 ∧
      (chain.call q).result =
        "RAG response based on: " ++
          String.intercalate ", "
            ((VectorStore.search ⟨docs⟩ q 4).map (fun d => d.content)) ∧
      (∀ q2 : String, chain.call q2 = chain.call q) := by
  exact ⟨⟨⟨docs⟩, ragChainCall docs⟩, rfl, rfl, rfl, rfl, fun q2 => rfl⟩

/-- C6: from any state in which the facade is not yet initialized, if the
connection test yields `false` during `initialize()`, the call fails with
the connection error, the facade's own flag remains `false`, and a
subsequent `getCore()` fails with the precondition error. -/
theorem starterConnFailure (s : StarterState) (h : s.initialized = false) :
    (starterInitialize s false).2 =
      Except.error "Failed to establish connection with models" ∧
    (starterInitialize s false).1.initialized = false ∧
    starterGetCore (starterInitialize s false).1 =
      Except.error "LangChain starter must be initialized before use" := by
  obtain ⟨mm, init⟩ := s
  simp only at h
  subst h
  exact ⟨rfl, rfl, rfl⟩

/-- Witness for C6 at the freshly constructed facade state. -/
theorem starterConnFailure_witness :
    (starterInitialize ⟨false, false⟩ false).2 =
      Except.error "Failed to establish connection with models" ∧
    (starterInitialize ⟨false, false⟩ false).1.initialized = false ∧
    starterGetCore (starterInitialize ⟨false, false⟩ false).1 =
      Except.error "LangChain starter must be initialized before use" :=
  starterConnFailure ⟨false, false⟩ rfl

/-- C7: `ModelManager.initializeStep` is idempotent.  From the uninitialized
state, two successive calls perform the 100 ms initialization delay exactly
once overall, the second call's trace is exactly the warning log, and the
flag after the second call equals the flag after a single call (namely
`true`). -/
theorem mmInitializeIdempotent :
    (ModelManager.initializeStep (ModelManager.initializeStep false).1).1 =
      (ModelManager.initializeStep false).1 ∧
    (((ModelManager.initializeStep false).2 ++
        (ModelManager.initializeStep (ModelManager.initializeStep false).1).2).filter
          MMEvent.isDelay).length = 1 ∧
    (ModelManager.initializeStep (ModelManager.initializeStep false).1).2 =
      [MMEvent.logCall "warn" "ModelManager already initialized"] ∧
    (ModelManager.initializeStep false).1 = true := by decide

/-- C1: every Model-Manager accessor and every Orchestration-Core operation
fails with the precondition error `"ModelManager must be initialized before
use"` while the initialized flag is `false`, and succeeds once
`initialize()` has succeeded (which sets the flag to `true`); for
`splitText`, success additionally needs the configured chunk size to be
positive, since the chunking loop advances by it. -/
theorem uninitializedGating (message template query : String)
    (systemPrompt : Option String) (docs : List String) (k cs : Nat)
    (rand : Nat → ℚ) (text : List Char) (hcs : 1 ≤ cs) :
    (ModelManager.getChatModel false = Except.error initErr ∧
     ModelManager.getEmbeddings false = Except.error initErr ∧
     ModelManager.getTextSplitter false = Except.error initErr ∧
     LangChainCore.simpleChat false message systemPrompt = Except.error initErr ∧
     LangChainCore.createPromptChain false template = Except.error initErr ∧
     LangChainCore.createVectorStore false docs = Except.error initErr ∧
     LangChainCore.createRAGChain false docs = Except.error initErr ∧
     LangChainCore.similaritySearch false query docs k = Except.error initErr ∧
     LangChainCore.getEmbeddings false rand = Except.error initErr ∧
     LangChainCore.splitText false cs text = some (Except.error initErr)) ∧
    ((ModelManager.initializeStep false).1 = true ∧
     (ModelManager.getChatModel (ModelManager.initializeStep false).1).isOk = true ∧
     (ModelManager.getEmbeddings (ModelManager.initializeStep false).1).isOk = true ∧
     (ModelManager.getTextSplitter (ModelManager.initializeStep false).1).isOk = true ∧
     (LangChainCore.simpleChat (ModelManager.initializeStep false).1 message
        systemPrompt).isOk = true ∧
     (LangChainCore.createPromptChain (ModelManager.initializeStep false).1
        template).isOk = true ∧
     (LangChainCore.createVectorStore (ModelManager.initializeStep false).1
        docs).isOk = true ∧
     (LangChainCore.createRAGChain (ModelManager.initializeStep false).1
        docs).isOk = true ∧
     (LangChainCore.similaritySearch (ModelManager.initializeStep false).1 query
        docs k).isOk = true ∧
     (LangChainCore.getEmbeddings (ModelManager.initializeStep false).1 rand).isOk =
        true ∧
     (∃ chunks, LangChainCore.splitText (ModelManager.initializeStep false).1 cs text =
        some (Except.ok chunks))) := by
  refine ⟨⟨rfl, rfl, rfl, rfl, rfl, rfl, rfl, rfl, rfl, rfl⟩,
          rfl, rfl, rfl, rfl, rfl, rfl, rfl, rfl, rfl, rfl, ?_⟩
  obtain ⟨chunks, hchunks⟩ :=
    splitChunksFuel_total cs hcs text.length text (Nat.le_refl _)
  refine ⟨chunks, ?_⟩
  show LangChainCore.splitText true cs text = some (Except.ok chunks)
  unfold LangChainCore.splitText
  rw [hchunks]
  rfl

/-- Witness for C1 at concrete inputs with chunk size 2. -/
theorem uninitializedGating_witness :
    1 ≤ 2 ∧ ModelManager.getChatModel false = Except.error initErr :=
  ⟨by decide,
   (uninitializedGating "hello" "tmpl" "query" none ["a", "b"] 2 2
      (fun _ => 0) ['a', 'b', 'c'] (by decide)).1.1⟩

/-- C5: after initialization, with a positive configured chunk size,
`splitText` partitions the text into consecutive chunks — concatenating
them in order restores the input, every chunk except possibly the last has
exactly `chunkSize` characters, and no chunk exceeds `chunkSize` — so the
configured chunk-overlap value is never applied and no character position
is duplicated across chunks; in particular with `chunkSize = 5` the input
`"abcdefgh"` yields `["abcde", "fgh"]`. -/
theorem splitTextChunking :
    (∀ (cs : Nat) (text : List Char), 1 ≤ cs →
      ∃ chunks, LangChainCore.splitText true cs text = some (Except.ok chunks) ∧
        chunks.flatten = text ∧
        (∀ chunk ∈ chunks.dropLast, chunk.length = cs) ∧
        (∀ chunk ∈ chunks, chunk.length ≤ cs)) ∧
    LangChainCore.splitText true 5 "abcdefgh".data =
      some (Except.ok ["abcde".data, "fgh".data]) := by
  constructor
  · intro cs text hcs
    obtain ⟨chunks, hchunks⟩ :=
      splitChunksFuel_total cs hcs text.length text (Nat.le_refl _)
    obtain ⟨hle, hexact⟩ := splitChunksFuel_chunk_len cs text.length text chunks hchunks
    refine ⟨chunks, ?_, splitChunksFuel_join cs text.length text chunks hchunks,
      hexact, hle⟩
    show LangChainCore.splitText true cs text = some (Except.ok chunks)
    unfold LangChainCore.splitText
    rw [hchunks]
    rfl
  · rfl

/-- Witness for C5 at chunk size 3 on `"abcd"`. -/
theorem splitTextChunking_witness :
    ∃ chunks, LangChainCore.splitText true 3 "abcd".data = some (Except.ok chunks) ∧
      chunks.flatten = "abcd".data ∧
      (∀ chunk ∈ chunks.dropLast, chunk.length = 3) ∧
      (∀ chunk ∈ chunks, chunk.length ≤ 3) :=
  splitTextChunking.1 3 "abcd".data (by decide)

/-- C10: `splitText` is a lossless partition for every positive chunk size:
it terminates, the chunks concatenate back to the input, and every chunk
except possibly the last has exactly `chunkSize` characters; the empty text
yields the empty chunk list (for any chunk size, the loop body never runs);
and positivity is necessary for termination — with chunk size `0` the loop
diverges on every nonempty text, i.e. no amount of fuel produces a
result. -/
theorem splitTextPartition :
    (∀ (cs : Nat) (text : List Char), 1 ≤ cs →
      ∃ chunks, LangChainCore.splitText true cs text = some (Except.ok chunks) ∧
        chunks.flatten = text ∧
        ∀ chunk ∈ chunks.dropLast, chunk.length = cs) ∧
    (∀ cs : Nat, LangChainCore.splitText true cs [] = some (Except.ok [])) ∧
    (∀ text : List Char, text ≠ [] → LangChainCore.splitText true 0 text = none) := by
  refine ⟨?_, ?_, ?_⟩
  · intro cs text hcs
    obtain ⟨chunks, hchunks⟩ :=
      splitChunksFuel_total cs hcs text.length text (Nat.le_refl _)
    obtain ⟨_, hexact⟩ := splitChunksFuel_chunk_len cs text.length text chunks hchunks
    refine ⟨chunks, ?_, splitChunksFuel_join cs text.length text chunks hchunks,
      hexact⟩
    show LangChainCore.splitText true cs text = some (Except.ok chunks)
    unfold LangChainCore.splitText
    rw [hchunks]
    rfl
  · intro cs
    show LangChainCore.splitText true cs [] = some (Except.ok [])
    unfold LangChainCore.splitText
    rw [show ([] : List Char).length = 0 from rfl, splitChunksFuel_nil]
    rfl
  · intro text ht
    show LangChainCore.splitText true 0 text = none
    unfold LangChainCore.splitText
    rw [splitChunksFuel_zero_cs text.length text ht]
    rfl

/-- Witness for C10: a positive-size split on `"abc"`, and divergence at
chunk size 0 on `"a"`. -/
theorem splitTextPartition_witness :
    (∃ chunks, LangChainCore.splitText true 2 "abc".data = some (Except.ok chunks) ∧
      chunks.flatten = "abc".data ∧
      ∀ chunk ∈ chunks.dropLast, chunk.length = 2) ∧
    LangChainCore.splitText true 0 "a".data = none :=
  ⟨splitTextPartition.1 2 "abc".data (by decide),
   splitTextPartition.2.2 "a".data (by decide)⟩
